import Mathlib

/-!
# Safe-Code-Executor: shallow embedding of `src/app.py`

The repository is a single Flask handler `run_code` (`src/app.py`): it
validates the submitted `code` field, writes it to a uniquely named file
under `tmp/`, launches a resource-capped docker container running that
file, waits with a host-side 10-second timeout, and classifies the
outcome into a JSON response.

We embed the handler as a pure function.  The nondeterministic parts of
its environment are explicit parameters:
  * the parsed request body (`Option (Option CodeField)`: outer `none`
    models a body that is not JSON, inner `none` a JSON body without a
    `"code"` key — both make `data.get("code", "")` return `""`);
  * the random hex token `fileId` (`uuid.uuid4().hex[:12]`);
  * the working directory `cwd` (`os.getcwd()`);
  * the outcome of `subprocess.run` on the docker command
    (`WaitOutcome`: completion with stdout/stderr/returncode, or
    `TimeoutExpired`, the latter carrying whether the best-effort
    `docker rm -f` itself raised).
Side effects are recorded as an ordered trace of `Effect`s; the JSON
response plus its HTTP status code is an `HttpResponse`.
-/

/-- The value found under the `"code"` key of the JSON body: either a
JSON string, or some JSON value that is not a string (which fails the
`isinstance(code, str)` check). -/
inductive CodeField
  | str (s : String)
  | nonString
deriving DecidableEq, Repr

/-- Result of `subprocess.run` when the docker command completes within
the host-side timeout (`proc.stdout`, `proc.stderr`, `proc.returncode`,
with `None` outputs already coerced to `""` as in lines 64–65). -/
structure CompletedProc where
  stdout : String
  stderr : String
  returncode : Int
deriving DecidableEq, Repr

/-- Outcome of the host-side wait: natural completion, or
`subprocess.TimeoutExpired` after 10 seconds.  `removeFailed` records
whether the subsequent best-effort `docker rm -f` call itself raised. -/
inductive WaitOutcome
  | completed (proc : CompletedProc)
  | expired (removeFailed : Bool)
deriving DecidableEq, Repr

/-- The externally visible side effects of the handler, in order. -/
inductive Effect
  | makeDirs (path : String)
  | writeArtifact (path : String) (content : String)
  | dockerRun (cmd : List String)
  | dockerRemoveForce (name : String)
deriving DecidableEq, Repr

/-- A `jsonify(...)` payload together with the HTTP status code.  A field
absent from the JSON dict is `none`. -/
structure HttpResponse where
  output : Option String
  error : Option String
  exit_code : Option Int
  status : Nat
deriving DecidableEq, Repr

/-- `startsWithL pat l` decides whether `pat` is an initial segment of
`l` (helper for Python substring containment). -/
def startsWithL : List Char → List Char → Bool
  | [], _ => true
  | _ :: _, [] => false
  | a :: pa, b :: hb => a = b && startsWithL pa hb

/-- `occursInL pat l` decides whether `pat` occurs contiguously in `l`. -/
def occursInL (pat : List Char) : List Char → Bool
  | [] => startsWithL pat []
  | h :: t => startsWithL pat (h :: t) || occursInL pat t

/-- Python's `pat in hay` substring test. -/
def strContains (hay pat : String) : Bool :=
  occursInL pat.toList hay.toList

/-- Drop the longest suffix of characters satisfying `p`. -/
def dropTrailing (p : Char → Bool) (s : String) : String :=
  String.mk ((s.toList.reverse.dropWhile p).reverse)

/-- Python's `s.rstrip("\n")`: remove every trailing newline. -/
def pyRstripNl (s : String) : String :=
  dropTrailing (fun c => c = '\n') s

/-- The ASCII whitespace stripped by Python's `str.strip()`. -/
def isPySpace (c : Char) : Bool :=
  c = ' ' || c = '\t' || c = '\n' || c = '\r' || c = '\x0b' || c = '\x0c'

/-- Python's `s.strip()` on ASCII text: remove leading and trailing
whitespace. -/
def pyStrip (s : String) : String :=
  dropTrailing isPySpace (String.mk (s.toList.dropWhile isPySpace))

/-- Line 25: `tmp_folder = "tmp"`. -/
def tmpFolder : String := "tmp"

/-- Line 21: the validation cap on `len(code)`. -/
def maxCodeLen : Nat := 5000

/-- Line 62: the fixed timeout message. -/
def timeoutMessage : String := "Execution timed out after 10 seconds"

/-- Line 74: the fixed friendly out-of-memory message. -/
def oomMessage : String := "Memory limit exceeded (container killed)"

/-- Line 35: `container_name = f"runpy-{file_id}"`. -/
def containerNameFor (fileId : String) : String := "runpy-" ++ fileId

/-- Line 30: `os.path.join(tmp_folder, f"{file_id}.py")`. -/
def artifactPathFor (fileId : String) : String :=
  tmpFolder ++ "/" ++ fileId ++ ".py"

/-- Line 49: the path of the staged file as seen inside the container. -/
def scriptPathFor (fileId : String) : String :=
  "/scripts/" ++ fileId ++ ".py"

/-- Lines 39–50: the argument vector handed to `subprocess.run`. -/
def dockerCmd (cwd fileId : String) : List String :=
  ["docker", "run", "--rm",
   "--name", containerNameFor fileId,
   "--network", "none",
   "--memory=128m",
   "--memory-swap=128m",
   "--pids-limit=64",
   "--cpus=1",
   "-v", cwd ++ "/tmp:/scripts:ro",
   "python:3.11-slim",
   "python", scriptPathFor fileId]

/-- Lines 15–16: `data = request.get_json(silent=True) or {}` followed by
`code = data.get("code", "")`. -/
def requestCode (body : Option (Option CodeField)) : CodeField :=
  match body with
  | none => CodeField.str ""
  | some none => CodeField.str ""
  | some (some v) => v

/-- Lines 24–35: the ordered staging side effects of a valid request —
`os.makedirs`, the artifact write, then the `subprocess.run` of the
docker command. -/
def stagingEffects (fileId cwd code : String) : List Effect :=
  [Effect.makeDirs tmpFolder,
   Effect.writeArtifact (artifactPathFor fileId) code,
   Effect.dockerRun (dockerCmd cwd fileId)]

/-- Lines 18–81: validation and execution, applied to the extracted
`code` value.  Returns the ordered side-effect trace and the JSON
response with its status code. -/
def handle_code (field : CodeField) (fileId cwd : String)
    (wait : WaitOutcome) : List Effect × HttpResponse :=
  match field with
  | CodeField.nonString =>
      ([], ⟨none, some "code must be a string", none, 400⟩)
  | CodeField.str code =>
    if code.length > maxCodeLen then
      ([], ⟨none, some "Code too long (max 5000 chars)", none, 400⟩)
    else
      match wait with
      | WaitOutcome.expired _ =>
          (stagingEffects fileId cwd code ++
             [Effect.dockerRemoveForce (containerNameFor fileId)],
           ⟨some "", some timeoutMessage, none, 200⟩)
      | WaitOutcome.completed proc =>
          if proc.returncode = 0 then
            (stagingEffects fileId cwd code,
             ⟨some (pyRstripNl proc.stdout), some "", none, 200⟩)
          else if proc.returncode = 137 || strContains proc.stderr "Killed"
              || strContains proc.stderr "Out of memory"
              || strContains proc.stderr "MemoryError" then
            (stagingEffects fileId cwd code,
             ⟨some (pyRstripNl proc.stdout), some oomMessage, none, 200⟩)
          else
            (stagingEffects fileId cwd code,
             ⟨some (pyRstripNl proc.stdout), some (pyStrip proc.stderr),
              some proc.returncode, 200⟩)

/-- Lines 14–81: the `/run` handler. -/
def run_code (body : Option (Option CodeField)) (fileId cwd : String)
    (wait : WaitOutcome) : List Effect × HttpResponse :=
  handle_code (requestCode body) fileId cwd wait

/-- The spec's outcome categories (§3, ExecutionResult.classification). -/
inductive Classification
  | Success
  | Timeout
  | MemoryLimitExceeded
  | RuntimeError
deriving DecidableEq, Repr

/-- The classification decision of lines 69–81, factored as the spec's
`(exitCode, stderrText) → classification` function (§9). -/
def classify (rc : Int) (stderr : String) : Classification :=
  if rc = 0 then Classification.Success
  else if rc = 137 || strContains stderr "Killed"
      || strContains stderr "Out of memory"
      || strContains stderr "MemoryError" then
    Classification.MemoryLimitExceeded
  else Classification.RuntimeError

/-- Classification of a whole wait outcome: deadline expiry is Timeout,
completion is classified by `classify`. -/
def outcomeClassification (wait : WaitOutcome) : Classification :=
  match wait with
  | WaitOutcome.expired _ => Classification.Timeout
  | WaitOutcome.completed proc => classify proc.returncode proc.stderr

/-- Recognizer for the forced-removal effect. -/
def isForcedRemoval : Effect → Bool
  | Effect.dockerRemoveForce _ => true
  | _ => false

/-- Recognizer for the artifact-write effect. -/
def isArtifactWrite : Effect → Bool
  | Effect.writeArtifact _ _ => true
  | _ => false

/-- Recognizer for the sandbox-launch effect. -/
def isSandboxLaunch : Effect → Bool
  | Effect.dockerRun _ => true
  | _ => false

example : run_code none "ab12" "/srv" (WaitOutcome.completed ⟨"hello\n", "", 0⟩) =
    ([Effect.makeDirs "tmp",
      Effect.writeArtifact "tmp/ab12.py" "",
      Effect.dockerRun (dockerCmd "/srv" "ab12")],
     ⟨some "hello", some "", none, 200⟩) := by
  decide

example : strContains "x Killed y" "Killed" = true := by decide

example : pyStrip "  boom\n" = "boom" := by decide

/-- Shared: the exact outcome of the handler on deadline expiry. -/
theorem run_code_expired_eq (body : Option (Option CodeField))
    (fileId cwd code : String) (b : Bool)
    (hc : requestCode body = CodeField.str code)
    (hlen : code.length ≤ maxCodeLen) :
    run_code body fileId cwd (WaitOutcome.expired b) =
      (stagingEffects fileId cwd code ++
         [Effect.dockerRemoveForce (containerNameFor fileId)],
       ⟨some "", some timeoutMessage, none, 200⟩) := by
  unfold run_code
  rw [hc]
  simp only [handle_code]
  rw [if_neg (by omega)]

/-- Shared: the exact outcome of the handler on exit code 0. -/
theorem run_code_success_eq (body : Option (Option CodeField))
    (fileId cwd code : String) (proc : CompletedProc)
    (hc : requestCode body = CodeField.str code)
    (hlen : code.length ≤ maxCodeLen)
    (h0 : proc.returncode = 0) :
    run_code body fileId cwd (WaitOutcome.completed proc) =
      (stagingEffects fileId cwd code,
       ⟨some (pyRstripNl proc.stdout), some "", none, 200⟩) := by
  unfold run_code
  rw [hc]
  simp only [handle_code]
  rw [if_neg (by omega), if_pos h0]

/-- Shared: the exact outcome of the handler when the out-of-memory
heuristic fires on a non-zero exit code. -/
theorem run_code_oom_eq (body : Option (Option CodeField))
    (fileId cwd code : String) (proc : CompletedProc)
    (hc : requestCode body = CodeField.str code)
    (hlen : code.length ≤ maxCodeLen)
    (hnz : proc.returncode ≠ 0)
    (hoom : proc.returncode = 137 ∨ strContains proc.stderr "Killed" = true ∨
      strContains proc.stderr "Out of memory" = true ∨
      strContains proc.stderr "MemoryError" = true) :
    run_code body fileId cwd (WaitOutcome.completed proc) =
      (stagingEffects fileId cwd code,
       ⟨some (pyRstripNl proc.stdout), some oomMessage, none, 200⟩) := by
  unfold run_code
  rw [hc]
  simp only [handle_code]
  rw [if_neg (by omega), if_neg hnz, if_pos ?_]
  rcases hoom with h | h | h | h <;> simp [h]

/-- Shared: the exact outcome of the handler on a non-zero exit code
with the out-of-memory heuristic not firing. -/
theorem run_code_rte_eq (body : Option (Option CodeField))
    (fileId cwd code : String) (proc : CompletedProc)
    (hc : requestCode body = CodeField.str code)
    (hlen : code.length ≤ maxCodeLen)
    (hnz : proc.returncode ≠ 0)
    (h137 : proc.returncode ≠ 137)
    (hk : strContains proc.stderr "Killed" = false)
    (ho : strContains proc.stderr "Out of memory" = false)
    (hm : strContains proc.stderr "MemoryError" = false) :
    run_code body fileId cwd (WaitOutcome.completed proc) =
      (stagingEffects fileId cwd code,
       ⟨some (pyRstripNl proc.stdout), some (pyStrip proc.stderr),
        some proc.returncode, 200⟩) := by
  unfold run_code
  rw [hc]
  simp only [handle_code]
  rw [if_neg (by omega), if_neg hnz, if_neg ?_]
  simp [h137, hk, ho, hm]

/-- Shared: for valid code the response status is 200 and the body has
both an `output` and an `error` field. -/
theorem run_code_valid_response (body : Option (Option CodeField))
    (fileId cwd code : String) (wait : WaitOutcome)
    (hc : requestCode body = CodeField.str code)
    (hlen : code.length ≤ maxCodeLen) :
    (run_code body fileId cwd wait).2.status = 200 ∧
    (run_code body fileId cwd wait).2.output.isSome = true ∧
    (run_code body fileId cwd wait).2.error.isSome = true := by
  cases wait with
  | expired b =>
      rw [run_code_expired_eq body fileId cwd code b hc hlen]
      exact ⟨rfl, rfl, rfl⟩
  | completed proc =>
      by_cases h0 : proc.returncode = 0
      · rw [run_code_success_eq body fileId cwd code proc hc hlen h0]
        exact ⟨rfl, rfl, rfl⟩
      · by_cases h137 : proc.returncode = 137
        · rw [run_code_oom_eq body fileId cwd code proc hc hlen h0
            (Or.inl h137)]
          exact ⟨rfl, rfl, rfl⟩
        · by_cases hk : strContains proc.stderr "Killed" = true
          · rw [run_code_oom_eq body fileId cwd code proc hc hlen h0
              (Or.inr (Or.inl hk))]
            exact ⟨rfl, rfl, rfl⟩
          · by_cases ho : strContains proc.stderr "Out of memory" = true
            · rw [run_code_oom_eq body fileId cwd code proc hc hlen h0
                (Or.inr (Or.inr (Or.inl ho)))]
              exact ⟨rfl, rfl, rfl⟩
            · by_cases hm : strContains proc.stderr "MemoryError" = true
              · rw [run_code_oom_eq body fileId cwd code proc hc hlen h0
                  (Or.inr (Or.inr (Or.inr hm)))]
                exact ⟨rfl, rfl, rfl⟩
              · rw [run_code_rte_eq body fileId cwd code proc hc hlen h0
                  h137 (by simpa using hk) (by simpa using ho)
                  (by simpa using hm)]
                exact ⟨rfl, rfl, rfl⟩

/-- Shared: for valid code the effect trace starts with the staging
effects of lines 24–54. -/
theorem run_code_valid_effects (body : Option (Option CodeField))
    (fileId cwd code : String) (wait : WaitOutcome)
    (hc : requestCode body = CodeField.str code)
    (hlen : code.length ≤ maxCodeLen) :
    (run_code body fileId cwd wait).1 =
      stagingEffects fileId cwd code ++
        (match wait with
         | WaitOutcome.expired _ =>
             [Effect.dockerRemoveForce (containerNameFor fileId)]
         | WaitOutcome.completed _ => []) := by
  cases wait with
  | expired b =>
      rw [run_code_expired_eq body fileId cwd code b hc hlen]
  | completed proc =>
      by_cases h0 : proc.returncode = 0
      · rw [run_code_success_eq body fileId cwd code proc hc hlen h0]
        simp
      · by_cases hoom : proc.returncode = 137 ∨
            strContains proc.stderr "Killed" = true ∨
            strContains proc.stderr "Out of memory" = true ∨
            strContains proc.stderr "MemoryError" = true
        · rw [run_code_oom_eq body fileId cwd code proc hc hlen h0 hoom]
          simp
        · push_neg at hoom
          rw [run_code_rte_eq body fileId cwd code proc hc hlen h0
            hoom.1 (by simpa using hoom.2.1) (by simpa using hoom.2.2.1)
            (by simpa using hoom.2.2.2)]
          simp

/-- Shared: the only `dockerRun` effect the handler can issue carries
exactly the command of lines 39–50. -/
theorem run_code_dockerRun_eq (body : Option (Option CodeField))
    (fileId cwd : String) (wait : WaitOutcome) (cmd : List String)
    (h : Effect.dockerRun cmd ∈ (run_code body fileId cwd wait).1) :
    cmd = dockerCmd cwd fileId := by
  cases hb : requestCode body with
  | nonString =>
      unfold run_code at h
      rw [hb] at h
      simp only [handle_code, List.not_mem_nil] at h
  | str code =>
      by_cases hl : code.length > maxCodeLen
      · unfold run_code at h
        rw [hb] at h
        simp only [handle_code] at h
        rw [if_pos hl] at h
        simp at h
      · rw [run_code_valid_effects body fileId cwd code wait hb
          (by omega)] at h
        simp only [stagingEffects, List.mem_append, List.mem_cons,
          List.not_mem_nil, or_false] at h
        rcases h with (h | h | h) | h
        · exact absurd h (by simp)
        · exact absurd h (by simp)
        · exact (Effect.dockerRun.injEq _ _).mp h
        · cases wait with
          | expired b => simp at h
          | completed proc => simp at h

/-- C1: every request that reaches execution launches the sandbox with a
command whose configuration section — everything preceding the image and
the user's script — blocks the network, sets a memory cap whose swap
limit equals the memory limit, caps the process count, caps the CPUs,
and binds the staging directory read-only; the user's code appears only
after all of these flags. -/
theorem sandbox_launch_constraints (body : Option (Option CodeField))
    (fileId cwd : String) (wait : WaitOutcome) (cmd : List String)
    (h : Effect.dockerRun cmd ∈ (run_code body fileId cwd wait).1) :
    ∃ cfg, cmd = cfg ++ ["python:3.11-slim", "python", scriptPathFor fileId] ∧
      (∃ s t, cfg = s ++ ["--network", "none"] ++ t) ∧
      (∃ limit, ("--memory=" ++ limit) ∈ cfg ∧
        ("--memory-swap=" ++ limit) ∈ cfg) ∧
      "--pids-limit=64" ∈ cfg ∧
      "--cpus=1" ∈ cfg ∧
      (∃ s t, cfg = s ++ ["-v", cwd ++ "/tmp:/scripts:ro"] ++ t) := by
  rw [run_code_dockerRun_eq body fileId cwd wait cmd h]
  refine ⟨["docker", "run", "--rm", "--name", containerNameFor fileId,
      "--network", "none", "--memory=128m", "--memory-swap=128m",
      "--pids-limit=64", "--cpus=1", "-v", cwd ++ "/tmp:/scripts:ro"],
    rfl,
    ⟨["docker", "run", "--rm", "--name", containerNameFor fileId],
      ["--memory=128m", "--memory-swap=128m", "--pids-limit=64",
       "--cpus=1", "-v", cwd ++ "/tmp:/scripts:ro"], rfl⟩,
    ⟨"128m", ?_, ?_⟩, ?_, ?_,
    ⟨["docker", "run", "--rm", "--name", containerNameFor fileId,
      "--network", "none", "--memory=128m", "--memory-swap=128m",
      "--pids-limit=64", "--cpus=1"], [], rfl⟩⟩ <;> simp

/-- C2: when the host-side wait expires, exactly one forced removal is
issued, targeted at the container's stable name; the response is the
Timeout result with empty output, the fixed message, no exit code and
status 200; and whether the forced removal itself fails does not change
the handler's outcome at all. -/
theorem timeout_result_and_cleanup (body : Option (Option CodeField))
    (fileId cwd code : String) (b : Bool)
    (hc : requestCode body = CodeField.str code)
    (hlen : code.length ≤ maxCodeLen) :
    (run_code body fileId cwd (WaitOutcome.expired b)).1.countP
        isForcedRemoval = 1 ∧
    Effect.dockerRemoveForce (containerNameFor fileId) ∈
      (run_code body fileId cwd (WaitOutcome.expired b)).1 ∧
    (run_code body fileId cwd (WaitOutcome.expired b)).2 =
      ⟨some "", some timeoutMessage, none, 200⟩ ∧
    outcomeClassification (WaitOutcome.expired b) = Classification.Timeout ∧
    run_code body fileId cwd (WaitOutcome.expired true) =
      run_code body fileId cwd (WaitOutcome.expired false) := by
  rw [run_code_expired_eq body fileId cwd code b hc hlen,
    run_code_expired_eq body fileId cwd code true hc hlen,
    run_code_expired_eq body fileId cwd code false hc hlen]
  refine ⟨rfl, ?_, rfl, rfl, rfl⟩
  simp [stagingEffects]

/-- C3 (counterexample to the claim as stated): a completed execution
with exit code 0 whose stderr contains the marker `"Killed"` is *not*
classified MemoryLimitExceeded — the error field is `""`, not the fixed
friendly message, because the exit-code-0 check runs first. -/
theorem oom_marker_zero_exit_counterexample :
    strContains "Killed" "Killed" = true ∧
    (run_code none "ab12cd34ef56" "/srv"
        (WaitOutcome.completed ⟨"hi\n", "Killed", 0⟩)).2.error = some "" ∧
    some "" ≠ some oomMessage ∧
    outcomeClassification (WaitOutcome.completed ⟨"hi\n", "Killed", 0⟩) =
      Classification.Success ∧
    Classification.Success ≠ Classification.MemoryLimitExceeded := by
  decide

/-- C3 (amended): for every completed execution with a *non-zero* exit
code that equals 137 or whose stderr contains one of the out-of-memory
marker strings, the result is classified MemoryLimitExceeded: stdout is
preserved, the error field is the fixed friendly message regardless of
the raw stderr, and no exit code is included. -/
theorem oom_classification (body : Option (Option CodeField))
    (fileId cwd code : String) (proc : CompletedProc)
    (hc : requestCode body = CodeField.str code)
    (hlen : code.length ≤ maxCodeLen)
    (hnz : proc.returncode ≠ 0)
    (hoom : proc.returncode = 137 ∨ strContains proc.stderr "Killed" = true ∨
      strContains proc.stderr "Out of memory" = true ∨
      strContains proc.stderr "MemoryError" = true) :
    (run_code body fileId cwd (WaitOutcome.completed proc)).2 =
      ⟨some (pyRstripNl proc.stdout), some oomMessage, none, 200⟩ ∧
    outcomeClassification (WaitOutcome.completed proc) =
      Classification.MemoryLimitExceeded := by
  rw [run_code_oom_eq body fileId cwd code proc hc hlen hnz hoom]
  refine ⟨rfl, ?_⟩
  simp only [outcomeClassification, classify]
  rw [if_neg hnz, if_pos ?_]
  rcases hoom with h | h | h | h <;> simp [h]

/-- C4: every completed execution with a non-zero exit code that is not
classified MemoryLimitExceeded yields the RuntimeError shape: stdout
preserved, error equal to the trimmed stderr, and the actual non-zero
exit code included. -/
theorem runtime_error_classification (body : Option (Option CodeField))
    (fileId cwd code : String) (proc : CompletedProc)
    (hc : requestCode body = CodeField.str code)
    (hlen : code.length ≤ maxCodeLen)
    (hnz : proc.returncode ≠ 0)
    (hnm : classify proc.returncode proc.stderr ≠
      Classification.MemoryLimitExceeded) :
    (run_code body fileId cwd (WaitOutcome.completed proc)).2 =
      ⟨some (pyRstripNl proc.stdout), some (pyStrip proc.stderr),
       some proc.returncode, 200⟩ ∧
    outcomeClassification (WaitOutcome.completed proc) =
      Classification.RuntimeError := by
  have hcond : ¬ (proc.returncode = 137 ∨
      strContains proc.stderr "Killed" = true ∨
      strContains proc.stderr "Out of memory" = true ∨
      strContains proc.stderr "MemoryError" = true) := by
    intro hoom
    apply hnm
    simp only [classify]
    rw [if_neg hnz, if_pos ?_]
    rcases hoom with h | h | h | h <;> simp [h]
  push_neg at hcond
  rw [run_code_rte_eq body fileId cwd code proc hc hlen hnz hcond.1
    (by simpa using hcond.2.1) (by simpa using hcond.2.2.1)
    (by simpa using hcond.2.2.2)]
  refine ⟨rfl, ?_⟩
  simp only [outcomeClassification, classify]
  rw [if_neg hnz, if_neg ?_]
  simp [hcond.1, (by simpa using hcond.2.1 : _),
    (by simpa using hcond.2.2.1 : _), (by simpa using hcond.2.2.2 : _)]

/-- C5: every completed execution with exit code 0 yields the Success
shape: output is the captured stdout with trailing newlines trimmed and
the error field is the empty string. -/
theorem success_classification (body : Option (Option CodeField))
    (fileId cwd code : String) (proc : CompletedProc)
    (hc : requestCode body = CodeField.str code)
    (hlen : code.length ≤ maxCodeLen)
    (h0 : proc.returncode = 0) :
    (run_code body fileId cwd (WaitOutcome.completed proc)).2 =
      ⟨some (pyRstripNl proc.stdout), some "", none, 200⟩ ∧
    outcomeClassification (WaitOutcome.completed proc) =
      Classification.Success := by
  rw [run_code_success_eq body fileId cwd code proc hc hlen h0]
  exact ⟨rfl, by simp [outcomeClassification, classify, h0]⟩

/-- C6: a request whose code value is not a string, or whose code is
longer than 5000 characters, is rejected with a 400 client error and no
side effect at all: no directory creation, no artifact write, no
sandbox launch, no removal. -/
theorem invalid_input_rejected (body : Option (Option CodeField))
    (fileId cwd : String) (wait : WaitOutcome)
    (h : requestCode body = CodeField.nonString ∨
      ∃ code, requestCode body = CodeField.str code ∧
        code.length > maxCodeLen) :
    (run_code body fileId cwd wait).1 = [] ∧
    (run_code body fileId cwd wait).2.status = 400 ∧
    (run_code body fileId cwd wait).2.output = none := by
  unfold run_code
  rcases h with h | ⟨code, hc, hl⟩
  · rw [h]
    exact ⟨rfl, rfl, rfl⟩
  · rw [hc]
    simp only [handle_code]
    rw [if_pos hl]
    exact ⟨rfl, rfl, rfl⟩

/-- C7: every execution outcome — Success, Timeout, MemoryLimitExceeded
and RuntimeError alike — is reported with HTTP status 200 and a result
body carrying both an output and an error field, never as an error
status. -/
theorem classified_outcomes_reported_ok (body : Option (Option CodeField))
    (fileId cwd code : String) (wait : WaitOutcome)
    (hc : requestCode body = CodeField.str code)
    (hlen : code.length ≤ maxCodeLen) :
    (run_code body fileId cwd wait).2.status = 200 ∧
    (run_code body fileId cwd wait).2.output.isSome = true ∧
    (run_code body fileId cwd wait).2.error.isSome = true :=
  run_code_valid_response body fileId cwd code wait hc hlen

/-- C8: a valid request writes exactly one artifact and issues exactly
one sandbox launch; the artifact path embeds the request token, the
launch names the container with the deterministic function
`"runpy-" ++ token` of that same token, and that name is passed via
`--name` in the launch command. -/
theorem one_artifact_one_sandbox (body : Option (Option CodeField))
    (fileId cwd code : String) (wait : WaitOutcome)
    (hc : requestCode body = CodeField.str code)
    (hlen : code.length ≤ maxCodeLen) :
    (run_code body fileId cwd wait).1.countP isArtifactWrite = 1 ∧
    (run_code body fileId cwd wait).1.countP isSandboxLaunch = 1 ∧
    Effect.writeArtifact (artifactPathFor fileId) code ∈
      (run_code body fileId cwd wait).1 ∧
    (∃ s t, dockerCmd cwd fileId =
      s ++ ["--name", containerNameFor fileId] ++ t) ∧
    containerNameFor fileId = "runpy-" ++ fileId := by
  have heff := run_code_valid_effects body fileId cwd code wait hc hlen
  refine ⟨?_, ?_, ?_, ?_, rfl⟩
  · rw [heff]
    cases wait <;> rfl
  · rw [heff]
    cases wait <;> rfl
  · rw [heff]
    simp [stagingEffects]
  · exact ⟨["docker", "run", "--rm"],
      ["--network", "none", "--memory=128m", "--memory-swap=128m",
       "--pids-limit=64", "--cpus=1", "-v", cwd ++ "/tmp:/scripts:ro",
       "python:3.11-slim", "python", scriptPathFor fileId], rfl⟩

/-- C9: a request whose body is not JSON, or whose JSON has no `"code"`
key, gets the default code `""`, which passes validation and is staged
and executed in a sandbox with a 200 response rather than rejected. -/
theorem missing_code_defaults_to_empty (body : Option (Option CodeField))
    (fileId cwd : String) (wait : WaitOutcome)
    (h : body = none ∨ body = some none) :
    requestCode body = CodeField.str "" ∧
    Effect.writeArtifact (artifactPathFor fileId) "" ∈
      (run_code body fileId cwd wait).1 ∧
    Effect.dockerRun (dockerCmd cwd fileId) ∈
      (run_code body fileId cwd wait).1 ∧
    (run_code body fileId cwd wait).2.status = 200 := by
  have hc : requestCode body = CodeField.str "" := by
    rcases h with h | h <;> rw [h] <;> rfl
  have hlen : ("" : String).length ≤ maxCodeLen := by decide
  have heff := run_code_valid_effects body fileId cwd "" wait hc hlen
  refine ⟨hc, ?_, ?_,
    (run_code_valid_response body fileId cwd "" wait hc hlen).1⟩
  · rw [heff]
    simp [stagingEffects]
  · rw [heff]
    simp [stagingEffects]

/-- C10: exit code 0 takes precedence over the out-of-memory heuristics:
a completed execution with exit code 0 is classified Success even when
stderr contains an out-of-memory marker, and the marker check decides
MemoryLimitExceeded only for non-zero exit codes. -/
theorem exit_zero_overrides_oom_markers (body : Option (Option CodeField))
    (fileId cwd code stdout stderr : String)
    (hc : requestCode body = CodeField.str code)
    (hlen : code.length ≤ maxCodeLen)
    (hmark : strContains stderr "Killed" = true ∨
      strContains stderr "Out of memory" = true ∨
      strContains stderr "MemoryError" = true) :
    (run_code body fileId cwd
        (WaitOutcome.completed ⟨stdout, stderr, 0⟩)).2 =
      ⟨some (pyRstripNl stdout), some "", none, 200⟩ ∧
    classify 0 stderr = Classification.Success ∧
    (∀ rc : Int, rc ≠ 0 →
      classify rc stderr = Classification.MemoryLimitExceeded) := by
  refine ⟨?_, by simp [classify], ?_⟩
  · rw [run_code_success_eq body fileId cwd code ⟨stdout, stderr, 0⟩
      hc hlen rfl]
  · intro rc hrc
    simp only [classify]
    rw [if_neg hrc, if_pos ?_]
    rcases hmark with h | h | h <;> simp [h]

/-- Witness for `sandbox_launch_constraints` at a concrete request. -/
theorem sandbox_launch_constraints_witness :
    ∃ cfg, dockerCmd "/srv" "ab12" =
        cfg ++ ["python:3.11-slim", "python", scriptPathFor "ab12"] ∧
      (∃ s t, cfg = s ++ ["--network", "none"] ++ t) ∧
      (∃ limit, ("--memory=" ++ limit) ∈ cfg ∧
        ("--memory-swap=" ++ limit) ∈ cfg) ∧
      "--pids-limit=64" ∈ cfg ∧
      "--cpus=1" ∈ cfg ∧
      (∃ s t, cfg = s ++ ["-v", "/srv" ++ "/tmp:/scripts:ro"] ++ t) :=
  sandbox_launch_constraints none "ab12" "/srv"
    (WaitOutcome.completed ⟨"", "", 0⟩) (dockerCmd "/srv" "ab12") (by decide)

/-- Witness for `timeout_result_and_cleanup` at a concrete request. -/
theorem timeout_result_and_cleanup_witness :
    (run_code none "ab12" "/srv" (WaitOutcome.expired true)).1.countP
        isForcedRemoval = 1 ∧
    Effect.dockerRemoveForce (containerNameFor "ab12") ∈
      (run_code none "ab12" "/srv" (WaitOutcome.expired true)).1 ∧
    (run_code none "ab12" "/srv" (WaitOutcome.expired true)).2 =
      ⟨some "", some timeoutMessage, none, 200⟩ ∧
    outcomeClassification (WaitOutcome.expired true) =
      Classification.Timeout ∧
    run_code none "ab12" "/srv" (WaitOutcome.expired true) =
      run_code none "ab12" "/srv" (WaitOutcome.expired false) :=
  timeout_result_and_cleanup none "ab12" "/srv" "" true rfl (by decide)

/-- Witness for `oom_classification` at a concrete request. -/
theorem oom_classification_witness :
    (run_code none "ab12" "/srv"
        (WaitOutcome.completed ⟨"out\n", "MemoryError: boom", 1⟩)).2 =
      ⟨some (pyRstripNl "out\n"), some oomMessage, none, 200⟩ ∧
    outcomeClassification
        (WaitOutcome.completed ⟨"out\n", "MemoryError: boom", 1⟩) =
      Classification.MemoryLimitExceeded :=
  oom_classification none "ab12" "/srv" "" ⟨"out\n", "MemoryError: boom", 1⟩
    rfl (by decide) (by decide) (Or.inr (Or.inr (Or.inr (by decide))))

/-- Witness for `runtime_error_classification` at a concrete request. -/
theorem runtime_error_classification_witness :
    (run_code none "ab12" "/srv"
        (WaitOutcome.completed ⟨"x\n", " boom \n", 3⟩)).2 =
      ⟨some (pyRstripNl "x\n"), some (pyStrip " boom \n"), some 3, 200⟩ ∧
    outcomeClassification (WaitOutcome.completed ⟨"x\n", " boom \n", 3⟩) =
      Classification.RuntimeError :=
  runtime_error_classification none "ab12" "/srv" "" ⟨"x\n", " boom \n", 3⟩
    rfl (by decide) (by decide) (by decide)

/-- Witness for `success_classification` at a concrete request. -/
theorem success_classification_witness :
    (run_code none "ab12" "/srv"
        (WaitOutcome.completed ⟨"hello\n", "", 0⟩)).2 =
      ⟨some (pyRstripNl "hello\n"), some "", none, 200⟩ ∧
    outcomeClassification (WaitOutcome.completed ⟨"hello\n", "", 0⟩) =
      Classification.Success :=
  success_classification none "ab12" "/srv" "" ⟨"hello\n", "", 0⟩ rfl
    (by decide) rfl

/-- Witness for `invalid_input_rejected` at a concrete request. -/
theorem invalid_input_rejected_witness :
    (run_code (some (some CodeField.nonString)) "ab12" "/srv"
        (WaitOutcome.expired false)).1 = [] ∧
    (run_code (some (some CodeField.nonString)) "ab12" "/srv"
        (WaitOutcome.expired false)).2.status = 400 ∧
    (run_code (some (some CodeField.nonString)) "ab12" "/srv"
        (WaitOutcome.expired false)).2.output = none :=
  invalid_input_rejected (some (some CodeField.nonString)) "ab12" "/srv"
    (WaitOutcome.expired false) (Or.inl rfl)

/-- Witness for `classified_outcomes_reported_ok` at a concrete
request. -/
theorem classified_outcomes_reported_ok_witness :
    (run_code none "ab12" "/srv" (WaitOutcome.expired true)).2.status =
      200 ∧
    (run_code none "ab12" "/srv"
      (WaitOutcome.expired true)).2.output.isSome = true ∧
    (run_code none "ab12" "/srv"
      (WaitOutcome.expired true)).2.error.isSome = true :=
  classified_outcomes_reported_ok none "ab12" "/srv" ""
    (WaitOutcome.expired true) rfl (by decide)

/-- Witness for `one_artifact_one_sandbox` at a concrete request. -/
theorem one_artifact_one_sandbox_witness :
    (run_code none "ab12" "/srv" (WaitOutcome.expired true)).1.countP
        isArtifactWrite = 1 ∧
    (run_code none "ab12" "/srv" (WaitOutcome.expired true)).1.countP
        isSandboxLaunch = 1 ∧
    Effect.writeArtifact (artifactPathFor "ab12") "" ∈
      (run_code none "ab12" "/srv" (WaitOutcome.expired true)).1 ∧
    (∃ s t, dockerCmd "/srv" "ab12" =
      s ++ ["--name", containerNameFor "ab12"] ++ t) ∧
    containerNameFor "ab12" = "runpy-" ++ "ab12" :=
  one_artifact_one_sandbox none "ab12" "/srv" "" (WaitOutcome.expired true)
    rfl (by decide)

/-- Witness for `missing_code_defaults_to_empty` at a concrete
request. -/
theorem missing_code_defaults_to_empty_witness :
    requestCode (some none) = CodeField.str "" ∧
    Effect.writeArtifact (artifactPathFor "ab12") "" ∈
      (run_code (some none) "ab12" "/srv"
        (WaitOutcome.completed ⟨"", "", 0⟩)).1 ∧
    Effect.dockerRun (dockerCmd "/srv" "ab12") ∈
      (run_code (some none) "ab12" "/srv"
        (WaitOutcome.completed ⟨"", "", 0⟩)).1 ∧
    (run_code (some none) "ab12" "/srv"
        (WaitOutcome.completed ⟨"", "", 0⟩)).2.status = 200 :=
  missing_code_defaults_to_empty (some none) "ab12" "/srv"
    (WaitOutcome.completed ⟨"", "", 0⟩) (Or.inr rfl)

/-- Witness for `exit_zero_overrides_oom_markers` at a concrete
request. -/
theorem exit_zero_overrides_oom_markers_witness :
    (run_code none "ab12" "/srv"
        (WaitOutcome.completed ⟨"done\n", "Killed", 0⟩)).2 =
      ⟨some (pyRstripNl "done\n"), some "", none, 200⟩ ∧
    classify 0 "Killed" = Classification.Success ∧
    (∀ rc : Int, rc ≠ 0 →
      classify rc "Killed" = Classification.MemoryLimitExceeded) :=
  exit_zero_overrides_oom_markers none "ab12" "/srv" "" "done\n" "Killed"
    rfl (by decide) (Or.inl (by decide))
